import Mathlib

/-!
Verification of the dirtyapply browser extension against its specification.

The file shallowly embeds the two documents found in
`src/extension/background/service-worker.js`: the background service worker
(class `IndeedServiceWorker`) and the content script (class
`IndeedAutomation`).  Browser effects (chrome.storage, fetch, the DOM) are
made explicit: storage becomes a `String → Nat` counter map, fetch outcomes
become boolean/`Except` oracles, and the DOM becomes a list of element
records in document order.  Definitions whose doc comment starts with
"Modelled from the spec" come from the specification text rather than the
source and exist only to compare the two.
-/

namespace DirtyApply

/-- JavaScript `String.prototype.includes`: substring containment test. -/
def strIncludes (hay needle : String) : Bool :=
  hay.toList.tails.any (fun t => needle.toList.isPrefixOf t)

/-- Characterisation of `strIncludes` as list infix. -/
theorem strIncludes_iff (hay needle : String) :
    strIncludes hay needle = true ↔ needle.toList <:+: hay.toList := by
  unfold strIncludes
  rw [List.any_eq_true]
  constructor
  · rintro ⟨t, ht, hp⟩
    rw [List.mem_tails] at ht
    exact List.infix_iff_prefix_suffix.2 ⟨t, List.isPrefixOf_iff_prefix.1 hp, ht⟩
  · intro h
    obtain ⟨t, hp, hs⟩ := List.infix_iff_prefix_suffix.1 h
    exact ⟨t, (List.mem_tails _ _).2 hs, List.isPrefixOf_iff_prefix.2 hp⟩

/-! ### Service worker: configuration defaults (service-worker.js lines 6-12, 106-123, 360-373) -/

/-- Constructor of `IndeedServiceWorker` (line 10): the hard-coded domain whitelist. -/
def whitelist : List String := ["ca.indeed.com", "indeed.ca"]

/-- Preferences sub-record of the default profile (lines 117-121). -/
structure Preferences where
  autoSubmit : Bool
  requireConfirmation : Bool
  maxApplicationsPerDay : Nat
deriving DecidableEq, Repr

/-- User profile record as produced by `getDefaultProfile` (lines 106-123). -/
structure UserProfile where
  firstName : String
  lastName : String
  email : String
  phone : String
  location : String
  workAuthorization : String
  availableStartDate : String
  skills : List String
  resumePath : String
  preferences : Preferences
deriving DecidableEq, Repr

/-- `getDefaultProfile` (lines 106-123): the profile used when none is stored. -/
def getDefaultProfile : UserProfile :=
  { firstName := ""
  , lastName := ""
  , email := ""
  , phone := ""
  , location := ""
  , workAuthorization := ""
  , availableStartDate := ""
  , skills := []
  , resumePath := ""
  , preferences :=
      { autoSubmit := false
      , requireConfirmation := true
      , maxApplicationsPerDay := 10 } }

/-- Settings written by the `chrome.runtime.onInstalled` listener (lines 360-373). -/
structure InstallSettings where
  autoSubmitEnabled : Bool
  confirmBeforeSubmit : Bool
  maxDailyApplications : Nat
  companionPort : Nat
deriving DecidableEq, Repr

/-- Default settings stored on first install (lines 364-371). -/
def installDefaults : InstallSettings :=
  { autoSubmitEnabled := false
  , confirmBeforeSubmit := true
  , maxDailyApplications := 10
  , companionPort := 8001 }

/-! ### Service worker: domain gate (service-worker.js lines 312-315) -/

/-- `isWhitelistedDomain(url)` (lines 312-315): `if (!url) return false;
return this.whitelist.some(domain => url.includes(domain));`.  A missing URL
is `none`; the empty string is also falsy in JavaScript. -/
def isWhitelistedDomain (wl : List String) (url : Option String) : Bool :=
  match url with
  | none => false
  | some u => if u = "" then false else wl.any (fun domain => strIncludes u domain)

/-- Modelled from the spec: `checkDomain(pageOrigin) → allow|deny — exact or
suffix match against a configured whitelist`.  Used only to compare the
spec's gate with the code's `isWhitelistedDomain`. -/
def specCheckDomain (wl : List String) (origin : String) : Bool :=
  wl.any (fun d => decide (origin = d) || d.toList.isSuffixOf origin.toList)

/-! ### Service worker: submission counter (service-worker.js lines 219-246) -/

/-- `logApplicationSubmission` (lines 219-246), restricted to its counter
effect: reads `applications_<today>` from local storage, increments it
unconditionally, stores it back, and emits the `dailyLimitReached`
notification when the new count reaches the profile's
`maxApplicationsPerDay`.  The returned pair is the updated store and whether
the notification was sent. -/
def logApplicationSubmission (maxPerDay : Nat) (today : String)
    (store : String → Nat) : (String → Nat) × Bool :=
  let counterKey := "applications_" ++ today
  let count := store counterKey + 1
  (fun k => if k = counterKey then count else store k, decide (maxPerDay ≤ count))

/-! ### Service worker: companion health check (service-worker.js lines 263-293) -/

/-- Mutable service-worker state touched by `checkLocalCompanion`:
`this.localCompanionUrl` plus the `companionStatus`/`companionPort` keys of
`chrome.storage.local` (`none` = key never written). -/
structure CompanionState where
  localCompanionUrl : String
  companionStatus : Option Bool
  companionPort : Option Nat
deriving DecidableEq, Repr

/-- Ports probed by `checkLocalCompanion`, in source order (line 266). -/
def companionPorts : List Nat := [8001, 8002, 8003, 8080]

/-- Port-probing loop of `checkLocalCompanion` (lines 268-287).  `health p`
is true when `GET http://127.0.0.1:p/health` returns an ok response; a fetch
error or a non-ok response both make the loop move to the next port. -/
def checkPortsLoop (health : Nat → Bool) :
    List Nat → CompanionState → CompanionState × Bool
  | [], st => ({ st with companionStatus := some false }, false)
  | p :: rest, st =>
    if health p then
      ({ localCompanionUrl := "http://127.0.0.1:" ++ toString p
       , companionStatus := some true
       , companionPort := some p }, true)
    else
      checkPortsLoop health rest st

/-- `checkLocalCompanion` (lines 263-293): probe the candidate ports in
order; adopt the first healthy one, else record `companionStatus := false`
and keep the previous URL. -/
def checkLocalCompanion (health : Nat → Bool) (st : CompanionState) :
    CompanionState × Bool :=
  checkPortsLoop health companionPorts st

/-! ### Service worker: message dispatch (service-worker.js lines 40-96) -/

/-- Response object passed to `sendResponse`.  Only the fields the handler
actually writes are modelled; unset fields are `none`. -/
structure MessageResponse where
  success : Bool
  error : Option String := none
  data : Option UserProfile := none
  companionActive : Option Bool := none
deriving DecidableEq, Repr

/-- Outcomes of the awaited handler methods, one per `case` of the switch:
`Except.error e` models the handler throwing an error whose `message` is
`e`. -/
structure HandlerEnv where
  getUserProfile : Except String UserProfile
  saveUserProfile : Except String Unit
  processJobData : Except String Unit
  processFormFields : Except String Unit
  handleFileUpload : Except String Unit
  takeScreenshot : Except String Unit
  logApplicationSubmission : Except String Unit
  openSidePanel : Except String Unit
  checkLocalCompanion : Except String Bool

/-- Action strings recognised by the switch in `handleMessage` (lines 44-88). -/
def knownActions : List String :=
  [ "getUserProfile", "saveUserProfile", "jobDataExtracted", "formFieldsDetected"
  , "uploadFile", "takeScreenshot", "applicationSubmitted", "openSidePanel"
  , "checkCompanionStatus" ]

/-- Body of the `try` block of `handleMessage` (lines 43-91): the switch on
`message.action`.  Each case awaits its handler (a throw propagates as
`Except.error`) and then calls `sendResponse` exactly once; the `default`
case responds `Unknown action`. -/
def dispatch (env : HandlerEnv) (action : String) :
    Except String MessageResponse :=
  if action = "getUserProfile" then do
    let p ← env.getUserProfile
    pure { success := true, data := some p }
  else if action = "saveUserProfile" then do
    env.saveUserProfile
    pure { success := true }
  else if action = "jobDataExtracted" then do
    env.processJobData
    pure { success := true }
  else if action = "formFieldsDetected" then do
    env.processFormFields
    pure { success := true }
  else if action = "uploadFile" then do
    env.handleFileUpload
    pure { success := true }
  else if action = "takeScreenshot" then do
    env.takeScreenshot
    pure { success := true }
  else if action = "applicationSubmitted" then do
    env.logApplicationSubmission
    pure { success := true }
  else if action = "openSidePanel" then do
    env.openSidePanel
    pure { success := true }
  else if action = "checkCompanionStatus" then do
    let s ← env.checkLocalCompanion
    pure { success := true, companionActive := some s }
  else
    pure { success := false, error := some "Unknown action" }

/-- `handleMessage` (lines 40-96): the try/catch around `dispatch`; a thrown
error is caught and answered with `{success:false, error:error.message}`. -/
def handleMessage (env : HandlerEnv) (action : String) : MessageResponse :=
  match dispatch env action with
  | .ok r => r
  | .error e => { success := false, error := some e }

/-! ### Content script: DOM model

The content script (second document of service-worker.js, class
`IndeedAutomation`) reads the page through `document.querySelector` with CSS
attribute selectors and `window.getComputedStyle`.  A page is modelled as
the list of its elements in document order; each element carries exactly the
properties the script reads.  `label` is page data the script never reads;
it exists so the specification's notion of a labeled field can be stated. -/

/-- One DOM element, restricted to the properties the content script reads. -/
structure Element where
  tagName : String
  type : String
  name : String
  id : String
  placeholder : String
  accept : String
  required : Bool
  display : String
  visibility : String
  offsetParentNull : Bool
  label : String
deriving DecidableEq, Repr

/-- Attribute lookup used by attribute selectors. -/
def Element.attr (el : Element) (a : String) : String :=
  if a = "name" then el.name
  else if a = "id" then el.id
  else if a = "placeholder" then el.placeholder
  else if a = "type" then el.type
  else if a = "accept" then el.accept
  else ""

/-- One CSS attribute condition: `[attr="v"]` or `[attr*="s"]`. -/
inductive SelCond where
  | attrEq (attr val : String)
  | attrContains (attr sub : String)
deriving DecidableEq, Repr

/-- One CSS selector of the shape the content script uses: a tag name plus
attribute conditions. -/
structure Selector where
  tag : String
  conds : List SelCond
deriving DecidableEq, Repr

/-- Does an element satisfy one attribute condition. -/
def condMatches (el : Element) : SelCond → Bool
  | .attrEq a v => el.attr a = v
  | .attrContains a s => strIncludes (el.attr a) s

/-- Does an element match a selector. -/
def selectorMatches (sel : Selector) (el : Element) : Bool :=
  el.tagName = sel.tag && sel.conds.all (condMatches el)

/-- `document.querySelector`: first element in document order matching the
selector, if any. -/
def querySelector (dom : List Element) (sel : Selector) : Option Element :=
  dom.find? (selectorMatches sel)

/-- `isVisible(element)` (content script lines 579-582):
`style.display !== 'none' && style.visibility !== 'hidden' &&
element.offsetParent !== null`.  Disabled state is not examined. -/
def isVisible (el : Element) : Bool :=
  (el.display != "none") && (el.visibility != "hidden") && !el.offsetParentNull

/-! ### Content script: field detection (content script lines 508-582) -/

/-- Field record returned by `findField`: `{element, selector, type, required}`
where `type` falls back to the lowercase tag name when `element.type` is
falsy. -/
structure DetectedField where
  element : Element
  selector : Selector
  type : String
  required : Bool
deriving DecidableEq, Repr

/-- `findField(selectors)` (content script lines 564-577): for each selector
in order, take `document.querySelector(selector)`; if it yields an element
and that element is visible, return the field record; otherwise try the next
selector; return `null` when the list is exhausted. -/
def findField (dom : List Element) : List Selector → Option DetectedField
  | [] => none
  | sel :: rest =>
    match querySelector dom sel with
    | some el =>
      if isVisible el then
        some { element := el
             , selector := sel
             , type := if el.type = "" then el.tagName else el.type
             , required := el.required }
      else findField dom rest
    | none => findField dom rest

/-- Selector list for `firstName` (content script lines 510-515). -/
def firstNameSelectors : List Selector :=
  [ ⟨"input", [.attrContains "name" "firstName"]⟩
  , ⟨"input", [.attrContains "name" "first_name"]⟩
  , ⟨"input", [.attrContains "id" "firstName"]⟩
  , ⟨"input", [.attrContains "placeholder" "First name"]⟩ ]

/-- Selector list for `lastName` (content script lines 516-521). -/
def lastNameSelectors : List Selector :=
  [ ⟨"input", [.attrContains "name" "lastName"]⟩
  , ⟨"input", [.attrContains "name" "last_name"]⟩
  , ⟨"input", [.attrContains "id" "lastName"]⟩
  , ⟨"input", [.attrContains "placeholder" "Last name"]⟩ ]

/-- Selector list for `email` (content script lines 522-526). -/
def emailSelectors : List Selector :=
  [ ⟨"input", [.attrEq "type" "email"]⟩
  , ⟨"input", [.attrContains "name" "email"]⟩
  , ⟨"input", [.attrContains "id" "email"]⟩ ]

/-- Selector list for `phone` (content script lines 527-531). -/
def phoneSelectors : List Selector :=
  [ ⟨"input", [.attrEq "type" "tel"]⟩
  , ⟨"input", [.attrContains "name" "phone"]⟩
  , ⟨"input", [.attrContains "id" "phone"]⟩ ]

/-- Selector list for `resume` (content script lines 532-536). -/
def resumeSelectors : List Selector :=
  [ ⟨"input", [.attrEq "type" "file", .attrContains "accept" "pdf"]⟩
  , ⟨"input", [.attrContains "name" "resume"]⟩
  , ⟨"input", [.attrContains "id" "resume"]⟩ ]

/-- Selector list for `coverLetter` (content script lines 537-541). -/
def coverLetterSelectors : List Selector :=
  [ ⟨"textarea", [.attrContains "name" "cover"]⟩
  , ⟨"textarea", [.attrContains "id" "cover"]⟩
  , ⟨"textarea", [.attrContains "placeholder" "cover"]⟩ ]

/-- Selector list for `location` (content script lines 542-546). -/
def locationSelectors : List Selector :=
  [ ⟨"input", [.attrContains "name" "location"]⟩
  , ⟨"input", [.attrContains "name" "city"]⟩
  , ⟨"input", [.attrContains "id" "location"]⟩ ]

/-- Selector list for `workAuth` (content script lines 547-551). -/
def workAuthSelectors : List Selector :=
  [ ⟨"select", [.attrContains "name" "work_auth"]⟩
  , ⟨"select", [.attrContains "name" "authorization"]⟩
  , ⟨"input", [.attrContains "name" "authorized"]⟩ ]

/-- Selector list for `startDate` (content script lines 552-556). -/
def startDateSelectors : List Selector :=
  [ ⟨"input", [.attrEq "type" "date"]⟩
  , ⟨"input", [.attrContains "name" "start"]⟩
  , ⟨"select", [.attrContains "name" "start"]⟩ ]

/-- Result object of `detectFormFields` (content script lines 508-562):
nine fixed semantic keys, each `findField` over its selector list. -/
structure FormFields where
  firstName : Option DetectedField
  lastName : Option DetectedField
  email : Option DetectedField
  phone : Option DetectedField
  resume : Option DetectedField
  coverLetter : Option DetectedField
  location : Option DetectedField
  workAuth : Option DetectedField
  startDate : Option DetectedField
deriving DecidableEq, Repr

/-- `detectFormFields` (content script lines 508-562). -/
def detectFormFields (dom : List Element) : FormFields :=
  { firstName := findField dom firstNameSelectors
  , lastName := findField dom lastNameSelectors
  , email := findField dom emailSelectors
  , phone := findField dom phoneSelectors
  , resume := findField dom resumeSelectors
  , coverLetter := findField dom coverLetterSelectors
  , location := findField dom locationSelectors
  , workAuth := findField dom workAuthSelectors
  , startDate := findField dom startDateSelectors }

/-- `Object.entries(this.formFields)` in insertion order. -/
def FormFields.entries (ff : FormFields) : List (String × Option DetectedField) :=
  [ ("firstName", ff.firstName), ("lastName", ff.lastName), ("email", ff.email)
  , ("phone", ff.phone), ("resume", ff.resume), ("coverLetter", ff.coverLetter)
  , ("location", ff.location), ("workAuth", ff.workAuth), ("startDate", ff.startDate) ]

/-- Field descriptors actually produced (the non-null entries). -/
def FormFields.descriptors (ff : FormFields) : List DetectedField :=
  ff.entries.filterMap (fun kv => kv.2)

/-- Modelled from the spec: the `N distinct labeled fields` of a page — the
input-like elements carrying a label.  The repository has no general labeled
field detector (detection is keyed to nine fixed semantics), so this count
comes from the specification's words and is used only for comparison. -/
def specLabeledFieldCount (dom : List Element) : Nat :=
  (dom.filter (fun el =>
    (el.label != "") &&
    (el.tagName = "input" || el.tagName = "textarea" || el.tagName = "select"))).length

/-! ### Content script: value map and fill execution (content script lines 636-757) -/

/-- Job data read by `generateCoverLetter` (content script lines 861-874). -/
structure JobData where
  title : String
  company : String
deriving DecidableEq, Repr

/-- `generateCoverLetter` (content script lines 861-874): empty when no job
data, else the template letter. -/
def generateCoverLetter (profile : UserProfile) (jobData : Option JobData) : String :=
  match jobData with
  | none => ""
  | some jd =>
    "Dear Hiring Manager,\n\nI am writing to express my interest in the " ++
    jd.title ++ " position at " ++ jd.company ++
    ". \n\nBased on the job description, I believe my experience aligns well with your requirements. I am excited about the opportunity to contribute to your team and would welcome the chance to discuss how my skills can benefit " ++
    jd.company ++ ".\n\nThank you for your consideration.\n\nBest regards,\n" ++
    profile.firstName ++ " " ++ profile.lastName

/-- `getFieldValue(fieldKey, field)` (content script lines 648-671): the
switch mapping a semantic key to the profile value; unknown keys (including
`resume`) yield the empty string. -/
def getFieldValue (profile : UserProfile) (jobData : Option JobData)
    (fieldKey : String) : String :=
  if fieldKey = "firstName" then profile.firstName
  else if fieldKey = "lastName" then profile.lastName
  else if fieldKey = "email" then profile.email
  else if fieldKey = "phone" then profile.phone
  else if fieldKey = "location" then profile.location
  else if fieldKey = "workAuth" then profile.workAuthorization
  else if fieldKey = "startDate" then profile.availableStartDate
  else if fieldKey = "coverLetter" then generateCoverLetter profile jobData
  else ""

/-- `fillField` (content script lines 705-737), abstracted to the automation
mechanisms it attempts for an element, in order: a file input is delegated
to the local companion service (`uploadFile`) and nothing else is tried;
every other element is filled by direct DOM mutation (clear, focus, set the
value or select the option, dispatch input/change/blur events) and nothing
else is tried. -/
def fillFieldMechanisms (el : Element) : List String :=
  if el.type = "file" then ["companion-upload"] else ["structural-mutation"]

/-- Modelled from the spec: the fixed strategy fallback chain
`structural-mutation → privileged-input → optical-locate → scripted-verify`.
Used only for comparison with `fillFieldMechanisms`. -/
def specStrategyChain : List String :=
  ["structural-mutation", "privileged-input", "optical-locate", "scripted-verify"]

/-- Outcome of one `executeAutoFill` run (content script lines 673-703):
the status banner, the counts, and whether the submit button was enabled. -/
structure FillOutcome where
  statusMsg : String
  statusKind : String
  filledCount : Nat
  errors : List String
  submitEnabled : Bool
deriving DecidableEq, Repr

/-- `executeAutoFill` (content script lines 673-703).  `fillResult key`
models whether the `this.fillField` call for that entry throws (the source
wraps each call in try/catch).  Entries are visited in `Object.entries`
order; an entry is attempted only when its field is non-null and its value
is truthy.  The submit button is enabled only when no errors occurred. -/
def executeAutoFill (formFields : Option FormFields) (profile : Option UserProfile)
    (jobData : Option JobData) (fillResult : String → Except String Unit) :
    FillOutcome :=
  match formFields, profile with
  | some ff, some p =>
    let r := ff.entries.foldl
      (fun (acc : Nat × List String) kv =>
        match kv.2 with
        | none => acc
        | some _field =>
          let value := getFieldValue p jobData kv.1
          if value = "" then acc
          else
            match fillResult kv.1 with
            | .ok _ => (acc.1 + 1, acc.2)
            | .error e => (acc.1, acc.2 ++ [kv.1 ++ ": " ++ e]))
      (0, [])
    if r.2.length > 0 then
      { statusMsg := "Filled " ++ toString r.1 ++ " fields with " ++
          toString r.2.length ++ " errors"
      , statusKind := "warning"
      , filledCount := r.1
      , errors := r.2
      , submitEnabled := false }
    else
      { statusMsg := "Successfully filled " ++ toString r.1 ++ " fields"
      , statusKind := "success"
      , filledCount := r.1
      , errors := r.2
      , submitEnabled := true }
  | _, _ =>
    { statusMsg := "Missing form fields or user profile"
    , statusKind := "error"
    , filledCount := 0
    , errors := []
    , submitEnabled := false }

/-! ### Content script: confirmation and submission (content script lines 759-817) -/

/-- Per-step audit record in the specification's sense (`status`, reason).
The content script never constructs one; the field `results` of
`SubmitOutcome` records those that would be emitted, so that their absence
can be stated. -/
structure ExecutionResult where
  status : String
  reason : String
deriving DecidableEq, Repr

/-- Observable outcome of the submit path. -/
structure SubmitOutcome where
  submitted : Bool
  screenshotRequested : Bool
  statusMsg : Option String
  results : List ExecutionResult
deriving DecidableEq, Repr

/-- Outcome when the submit path is never entered. -/
def noSubmitOutcome : SubmitOutcome :=
  { submitted := false, screenshotRequested := false, statusMsg := none, results := [] }

/-- `submitApplication` (content script lines 769-791): when a submit button
is found, request a screenshot and click it; otherwise show
`Submit button not found`. -/
def submitApplication (submitButtonFound : Bool) : SubmitOutcome :=
  if submitButtonFound then
    { submitted := true, screenshotRequested := true, statusMsg := none, results := [] }
  else
    { submitted := false, screenshotRequested := false
    , statusMsg := some "Submit button not found", results := [] }

/-- `confirmAndSubmit` (content script lines 759-767): show the native
confirm dialog; on accept call `submitApplication`, on deny do nothing at
all. -/
def confirmAndSubmit (confirmDialog : Bool) (submitButtonFound : Bool) :
    SubmitOutcome :=
  if confirmDialog then submitApplication submitButtonFound
  else noSubmitOutcome

/-- Result of one full apply flow. -/
structure ApplyFlowResult where
  fill : FillOutcome
  submit : SubmitOutcome
  store : String → Nat
  limitNotified : Bool

/-- Composition of the apply flow as the UI wires it: the Auto Fill button
runs `executeAutoFill`; the Submit button (enabled only when the fill
reported no errors) runs `confirmAndSubmit`; when the click went through and
`checkSubmissionResult` detects success indicators (`submissionDetected`),
the background `logApplicationSubmission` is invoked.  The daily counter
`store` and `maxPerDay` are threaded through to show exactly where they are
— and are not — consulted. -/
def applyFlow (maxPerDay : Nat) (today : String) (store : String → Nat)
    (formFields : Option FormFields) (profile : Option UserProfile)
    (jobData : Option JobData) (fillResult : String → Except String Unit)
    (confirmDialog submitButtonFound submissionDetected : Bool) :
    ApplyFlowResult :=
  let fill := executeAutoFill formFields profile jobData fillResult
  let submit :=
    if fill.submitEnabled then confirmAndSubmit confirmDialog submitButtonFound
    else noSubmitOutcome
  if submit.submitted && submissionDetected then
    let logged := logApplicationSubmission maxPerDay today store
    { fill := fill, submit := submit, store := logged.1, limitNotified := logged.2 }
  else
    { fill := fill, submit := submit, store := store, limitNotified := false }

/-! ### Concrete pages and data used by counterexamples and witnesses -/

/-- Element with every property empty/default and visible styling. -/
def blankElement : Element :=
  { tagName := "", type := "", name := "", id := "", placeholder := "", accept := ""
  , required := false, display := "block", visibility := "visible"
  , offsetParentNull := false, label := "" }

/-- Visible labeled text input whose name matches none of the nine selector lists. -/
def middleNameInput : Element :=
  { blankElement with
      tagName := "input", type := "text", name := "middle", label := "Middle Name" }

/-- Email input hidden by `display:none`. -/
def hiddenEmailInput : Element :=
  { blankElement with
      tagName := "input", type := "email", name := "email",
      label := "Email", display := "none" }

/-- Visible email input. -/
def visibleEmailInput : Element :=
  { blankElement with
      tagName := "input", type := "email", name := "email", label := "Email" }

/-- Visible plain text input (not a file input). -/
def plainTextInput : Element :=
  { blankElement with tagName := "input", type := "text", name := "firstName" }

/-- Profile with a few concrete values filled in. -/
def demoProfile : UserProfile :=
  { getDefaultProfile with firstName := "Alex", lastName := "Chen", email := "alex@x.com" }

/-- One full apply-flow run started with the daily counter already at the
configured maximum of 10: a page with one visible email field, filling
succeeds, the user confirms, the submit button exists, and the page shows
success indicators afterwards. -/
def quotaDemoRun : ApplyFlowResult :=
  applyFlow 10 "Mon" (fun _ => 10) (some (detectFormFields [visibleEmailInput]))
    (some demoProfile) none (fun _ => Except.ok ()) true true true

/-! ### C1 — per-day submission counter vs the configured daily maximum -/

/-- C1 counterexample: with a configured daily maximum of 1, two logged
submissions on the same date drive the `applications_Mon` counter to 2 — the
counter exceeds the configured maximum and no attempt was aborted
(`logApplicationSubmission` increments unconditionally). -/
theorem quota_counter_exceeds_max_cex :
    (logApplicationSubmission 1 "Mon"
      (logApplicationSubmission 1 "Mon" (fun _ => 0)).1).1 "applications_Mon" = 2 ∧
    ¬ (2 ≤ 1) := by
  constructor
  · rfl
  · decide

/-- C1 (amended): `logApplicationSubmission` increments the per-date counter
by exactly one on every logged submission, without consulting any bound
beforehand; the configured daily maximum only determines whether the
`dailyLimitReached` notification is emitted, namely exactly when the new
count has reached it.  Nothing aborts, so the counter grows past the
maximum. -/
theorem logApplicationSubmission_unconditional_increment
    (maxPerDay : Nat) (today : String) (store : String → Nat) :
    (logApplicationSubmission maxPerDay today store).1 ("applications_" ++ today) =
      store ("applications_" ++ today) + 1 ∧
    ((logApplicationSubmission maxPerDay today store).2 = true ↔
      maxPerDay ≤ store ("applications_" ++ today) + 1) := by
  simp [logApplicationSubmission]

/-! ### C2 — domain gate semantics -/

/-- C2 counterexample: the URL `https://ca.indeed.com.evil.net/apply` is
allowed by the code's `isWhitelistedDomain` (substring containment) although
its origin `ca.indeed.com.evil.net` is neither an exact nor a suffix match
of any whitelist entry, so the specified gate would deny it. -/
theorem domain_gate_substring_cex :
    isWhitelistedDomain whitelist (some "https://ca.indeed.com.evil.net/apply") = true ∧
    specCheckDomain whitelist "ca.indeed.com.evil.net" = false := by
  constructor <;> decide

/-- C2 (amended): `isWhitelistedDomain` allows a URL exactly when the URL is
present, non-empty, and contains some whitelist entry as a substring
(`String.includes`), not exact-or-suffix matching; a missing URL is denied.
In the code this gate only filters the page-reloaded notification on tab
updates — it does not abort a plan, and no ExecutionResults exist. -/
theorem isWhitelistedDomain_characterisation (wl : List String) (url : String) :
    (isWhitelistedDomain wl (some url) = true ↔
      url ≠ "" ∧ ∃ d ∈ wl, d.toList <:+: url.toList) ∧
    isWhitelistedDomain wl none = false := by
  constructor
  · by_cases hu : url = ""
    · simp [isWhitelistedDomain, hu]
    · simp [isWhitelistedDomain, hu, List.any_eq_true, strIncludes_iff]
  · rfl

/-! ### C3 — human confirmation before submit -/

/-- C3 counterexample: when the confirmation dialog is denied,
`confirmAndSubmit` does nothing at all — no submission, but also no record
of any kind; in particular no `Skipped`/`ConfirmationDenied` execution
result is produced, contradicting the claim's recording requirement. -/
theorem confirmation_denied_unrecorded_cex :
    confirmAndSubmit false true = noSubmitOutcome ∧
    (confirmAndSubmit false true).results = [] ∧
    ExecutionResult.mk "Skipped" "ConfirmationDenied" ∉ (confirmAndSubmit false true).results := by
  refine ⟨rfl, rfl, ?_⟩
  decide

/-- C3 (amended): the submit click is dispatched only when the confirmation
dialog is accepted (and a submit button exists); when confirmation is
denied, nothing is submitted and nothing is recorded — the outcome is
exactly the empty `noSubmitOutcome`, with no `Skipped`/`ConfirmationDenied`
execution result (no timeout path exists either: `confirm` blocks). -/
theorem confirmAndSubmit_gating (confirmDialog submitButtonFound : Bool) :
    ((confirmAndSubmit confirmDialog submitButtonFound).submitted = true →
      confirmDialog = true ∧ submitButtonFound = true) ∧
    (confirmDialog = false →
      confirmAndSubmit confirmDialog submitButtonFound = noSubmitOutcome) := by
  cases confirmDialog <;> cases submitButtonFound <;>
    simp [confirmAndSubmit, submitApplication, noSubmitOutcome]

/-! ### C4 — quota at maximum and the submit step -/

/-- C4 counterexample: with the daily counter already at the configured
maximum (10), the fill step still succeeds — but the submit step is not
skipped with `QuotaExceeded`: it proceeds, no skip record exists, and the
counter is pushed to 11, beyond the maximum. -/
theorem quota_at_max_submit_proceeds_cex :
    quotaDemoRun.fill.statusKind = "success" ∧
    quotaDemoRun.fill.filledCount = 1 ∧
    quotaDemoRun.submit.submitted = true ∧
    quotaDemoRun.submit.results = [] ∧
    quotaDemoRun.store "applications_Mon" = 11 ∧
    ¬ (11 ≤ 10) := by
  refine ⟨rfl, rfl, rfl, rfl, rfl, by decide⟩

/-- C4 (amended): the apply flow never consults the quota counter or the
daily maximum before submitting — the fill outcome and the submit outcome
are definitionally independent of both; the quota state is touched only
after a detected successful submission, when the counter is incremented
(past the maximum if need be). -/
theorem applyFlow_quota_not_consulted (maxPerDay : Nat) (today : String)
    (store : String → Nat) (formFields : Option FormFields)
    (profile : Option UserProfile) (jobData : Option JobData)
    (fillResult : String → Except String Unit)
    (confirmDialog submitButtonFound submissionDetected : Bool) :
    (applyFlow maxPerDay today store formFields profile jobData fillResult
        confirmDialog submitButtonFound submissionDetected).fill =
      executeAutoFill formFields profile jobData fillResult ∧
    (applyFlow maxPerDay today store formFields profile jobData fillResult
        confirmDialog submitButtonFound submissionDetected).submit =
      (if (executeAutoFill formFields profile jobData fillResult).submitEnabled then
        confirmAndSubmit confirmDialog submitButtonFound
      else noSubmitOutcome) ∧
    ((applyFlow maxPerDay today store formFields profile jobData fillResult
        confirmDialog submitButtonFound submissionDetected).submit.submitted = true →
      submissionDetected = true →
      (applyFlow maxPerDay today store formFields profile jobData fillResult
        confirmDialog submitButtonFound submissionDetected).store
          ("applications_" ++ today) =
        store ("applications_" ++ today) + 1) := by
  refine ⟨?_, ?_, ?_⟩
  · simp only [applyFlow]
    split <;> split <;> rfl
  · simp only [applyFlow]
    split <;> split <;> rfl
  · simp only [applyFlow]
    intro hsub hdet
    subst hdet
    by_cases hen : (executeAutoFill formFields profile jobData fillResult).submitEnabled = true
    · simp only [hen] at hsub ⊢
      by_cases hcs : (confirmAndSubmit confirmDialog submitButtonFound).submitted = true
      · simp [hcs, logApplicationSubmission]
      · simp [hcs] at hsub
    · simp only [Bool.not_eq_true] at hen
      simp [hen, noSubmitOutcome] at hsub

/-! ### C5 — strategy fallback chain -/

/-- C5 counterexample: for an ordinary text input, `fillField` attempts
exactly one mechanism — direct structural mutation — not the four-strategy
chain; there is no privileged-input, optical-locate or scripted-verify
attempt to fall back to, so a failing step fails after one attempt, not
after four. -/
theorem strategy_chain_absent_cex :
    fillFieldMechanisms plainTextInput = ["structural-mutation"] ∧
    fillFieldMechanisms plainTextInput ≠ specStrategyChain ∧
    (fillFieldMechanisms plainTextInput).length = 1 := by
  refine ⟨rfl, by decide, rfl⟩

/-- C5 (amended): every field is attempted with exactly one mechanism:
file inputs are delegated to the local companion service, every other field
is filled by direct structural mutation; no fallback chain exists, so a
failing fill is recorded after that single attempt. -/
theorem fillField_single_attempt (el : Element) :
    (fillFieldMechanisms el).length = 1 ∧
    (el.type = "file" → fillFieldMechanisms el = ["companion-upload"]) ∧
    (el.type ≠ "file" → fillFieldMechanisms el = ["structural-mutation"]) := by
  by_cases h : el.type = "file" <;> simp [fillFieldMechanisms, h]

/-! ### C6 — field detection cardinality and idempotence -/

/-- C6 counterexample: a page with exactly one distinct labeled fillable
field (a visible `Middle Name` text input) yields zero field descriptors,
because detection only knows nine fixed semantic keys — so detection does
not return exactly N descriptors for N labeled fields. -/
theorem detect_count_mismatch_cex :
    (detectFormFields [middleNameInput]).descriptors.length = 0 ∧
    specLabeledFieldCount [middleNameInput] = 1 ∧
    (0 : Nat) ≠ 1 := by
  refine ⟨rfl, rfl, by decide⟩

/-- C6 (amended): `detectFormFields` returns at most nine descriptors, one
per fixed semantic key (each the first visible match of that key's selector
list), regardless of how many labeled fields the page has; it is a pure
function of the DOM, so running it twice on an unchanged DOM yields
identical results. -/
theorem detectFormFields_at_most_nine_idempotent (dom : List Element) :
    (detectFormFields dom).descriptors.length ≤ 9 ∧
    detectFormFields dom = detectFormFields dom := by
  exact ⟨List.length_filterMap_le _ _, rfl⟩

/-! ### C7 — invisible elements in detection results -/

/-- C7 counterexample: a page whose only email input is `display:none`
produces no email descriptor at all — the invisible element is omitted, not
included with a `visible:false` flag (descriptors carry no such flag). -/
theorem invisible_field_omitted_cex :
    (detectFormFields [hiddenEmailInput]).email = none ∧
    isVisible hiddenEmailInput = false := by
  exact ⟨rfl, rfl⟩

/-- C7 (amended): `findField` returns a descriptor only for a visible
element: every field it yields has a visible element, so invisible
candidates are excluded from the result rather than flagged (disabled state
is never examined at all). -/
theorem findField_returns_only_visible (dom : List Element) (sels : List Selector)
    (fd : DetectedField) (h : findField dom sels = some fd) :
    isVisible fd.element = true := by
  induction sels with
  | nil => simp [findField] at h
  | cons sel rest ih =>
    cases hq : querySelector dom sel with
    | none =>
      simp only [findField, hq] at h
      exact ih h
    | some el =>
      simp only [findField, hq] at h
      by_cases hv : isVisible el
      · rw [if_pos hv] at h
        cases h
        simpa using hv
      · rw [if_neg hv] at h
        exact ih h

/-- C7 witness: on the page with one visible email input, `findField`
returns that field and its element is indeed visible. -/
theorem findField_returns_only_visible_wit :
    isVisible (DetectedField.mk visibleEmailInput
      ⟨"input", [SelCond.attrEq "type" "email"]⟩ "email" false).element = true :=
  findField_returns_only_visible [visibleEmailInput] emailSelectors
    (DetectedField.mk visibleEmailInput
      ⟨"input", [SelCond.attrEq "type" "email"]⟩ "email" false) (by decide)

/-! ### C8 — behaviour when configuration is absent -/

/-- C8 counterexample: with no stored configuration the engine does not fail
closed — the built-in whitelist is non-empty and the default daily maximum
is 10, not 0. -/
theorem absent_config_defaults_cex :
    whitelist ≠ [] ∧
    getDefaultProfile.preferences.maxApplicationsPerDay = 10 ∧
    (10 : Nat) ≠ 0 ∧
    installDefaults.maxDailyApplications = 10 := by
  refine ⟨by decide, rfl, by decide, rfl⟩

/-- C8 (amended): when configuration is absent the engine substitutes
built-in defaults instead of failing closed: the whitelist is the fixed
pair ca.indeed.com / indeed.ca, the daily submission maximum is 10, and
only the confirmation-required default (true, with auto-submit off) matches
the fail-closed description. -/
theorem absent_config_default_values :
    whitelist = ["ca.indeed.com", "indeed.ca"] ∧
    getDefaultProfile.preferences.maxApplicationsPerDay = 10 ∧
    getDefaultProfile.preferences.requireConfirmation = true ∧
    getDefaultProfile.preferences.autoSubmit = false ∧
    installDefaults.maxDailyApplications = 10 ∧
    installDefaults.confirmBeforeSubmit = true ∧
    installDefaults.autoSubmitEnabled = false := by
  exact ⟨rfl, rfl, rfl, rfl, rfl, rfl, rfl⟩

/-! ### C9 — message handler response discipline -/

/-- C9: `handleMessage` is a total function producing exactly one response
and letting no exception escape: an unrecognised action yields
`{success:false, error:Unknown action}`; a handler that throws yields
`{success:false, error:<message>}`; a recognised action whose handler
returns normally yields a response with `success = true`. -/
theorem handleMessage_response_discipline (env : HandlerEnv) (action : String) :
    (action ∉ knownActions →
      handleMessage env action = { success := false, error := some "Unknown action" }) ∧
    (∀ e, dispatch env action = Except.error e →
      handleMessage env action = { success := false, error := some e }) ∧
    (∀ r, dispatch env action = Except.ok r → action ∈ knownActions →
      r.success = true) := by
  refine ⟨?_, ?_, ?_⟩
  · intro h
    simp only [knownActions, List.mem_cons, List.not_mem_nil, or_false] at h
    push_neg at h
    obtain ⟨h1, h2, h3, h4, h5, h6, h7, h8, h9⟩ := h
    simp [handleMessage, dispatch, h1, h2, h3, h4, h5, h6, h7, h8, h9, pure, Except.pure]
  · intro e he
    simp [handleMessage, he]
  · intro r hr hmem
    simp only [knownActions, List.mem_cons, List.not_mem_nil, or_false] at hmem
    rcases hmem with rfl | rfl | rfl | rfl | rfl | rfl | rfl | rfl | rfl <;>
      simp only [dispatch, String.reduceEq, reduceIte, bind, Except.bind] at hr <;>
      split at hr <;>
      simp_all [pure, Except.pure] <;>
      (try subst hr) <;>
      (try rfl)

/-! ### C10 — companion port probing -/

/-- C10: `checkLocalCompanion` probes ports 8001, 8002, 8003, 8080 in that
fixed order; when some probed port's health check answers ok it adopts the
first such port (URL set to that port, `companionStatus := true`) and
returns true; when none answers ok it records `companionStatus := false`,
returns false, and leaves the previously configured URL unchanged. -/
theorem checkLocalCompanion_first_healthy_port (health : Nat → Bool) (st : CompanionState) :
    (∀ p, companionPorts.find? (fun q => health q) = some p →
      checkLocalCompanion health st =
        ({ localCompanionUrl := "http://127.0.0.1:" ++ toString p
         , companionStatus := some true
         , companionPort := some p }, true)) ∧
    (companionPorts.find? (fun q => health q) = none →
      checkLocalCompanion health st = ({ st with companionStatus := some false }, false)) := by
  cases h1 : health 8001 <;> cases h2 : health 8002 <;>
    cases h3 : health 8003 <;> cases h4 : health 8080 <;>
    refine ⟨fun p hp => ?_, fun hn => ?_⟩ <;>
    simp_all [checkLocalCompanion, checkPortsLoop, companionPorts, List.find?]

end DirtyApply
